import Mathlib

/-!
Shallow embedding of `src/server.py` (slack-mcp-server).

The server is a dispatcher (`call_tool`) over seven handler functions, each of
which performs one or two calls against a Slack Web API client and renders the
JSON response to a markdown string wrapped in a single `TextContent` block.

Modelling conventions:
- JSON values from the remote API are modelled by `JVal`.
- The Slack client is an oracle: a structure of functions, one per Web API
  method used by the source, each returning either a JSON value or a Python
  exception (`PyError`).
- Python exceptions are values of `PyError`; fallible code runs in
  `Except PyError`.
- The process environment is `Env`: the host timezone offset in seconds east
  of UTC (Python `datetime.fromtimestamp` and naive `datetime.timestamp()`
  both consult the host timezone), the current POSIX time, and the optional
  SLACK_WORKSPACE_URL variable.
- Machine floats are modelled exactly at microsecond resolution (PyNum); at
  the timestamp magnitudes the handlers see, double rounding never moves a
  value across a whole-second boundary, so second-truncation is unaffected.
-/

set_option maxRecDepth 8000

namespace SlackMCP

/-- Python real numbers as this program uses them. Python datetimes and
timedeltas carry microsecond resolution, every tool argument is a JSON
number, and every arithmetic step the handlers perform (unit conversion by
3600, subtraction, min, truncation to whole seconds) is exact at microsecond
resolution, so numbers are embedded as integer counts of microseconds: the
us field is the represented value times one million. -/
structure PyNum where
  us : Int
deriving DecidableEq

instance (n : Nat) : OfNat PyNum n := ⟨⟨(n : Int) * 1000000⟩⟩

/-- Negation of an embedded number. -/
def PyNum.neg (a : PyNum) : PyNum := ⟨-a.us⟩

instance : Neg PyNum := ⟨PyNum.neg⟩

/-- Addition of embedded numbers. -/
def PyNum.add (a b : PyNum) : PyNum := ⟨a.us + b.us⟩

instance : Add PyNum := ⟨PyNum.add⟩

/-- Subtraction of embedded numbers. -/
def PyNum.sub (a b : PyNum) : PyNum := ⟨a.us - b.us⟩

instance : Sub PyNum := ⟨PyNum.sub⟩

/-- Multiplication of embedded numbers (exact whenever one factor is an
integer, which covers every multiplication the source performs). -/
def PyNum.mul (a b : PyNum) : PyNum := ⟨(a.us * b.us).fdiv 1000000⟩

instance : Mul PyNum := ⟨PyNum.mul⟩

instance : LE PyNum := ⟨fun a b => a.us ≤ b.us⟩

instance : LT PyNum := ⟨fun a b => a.us < b.us⟩

instance (a b : PyNum) : Decidable (a ≤ b) :=
  inferInstanceAs (Decidable (a.us ≤ b.us))

instance (a b : PyNum) : Decidable (a < b) :=
  inferInstanceAs (Decidable (a.us < b.us))

/-- Python min of two numbers: the first argument when it is not larger. -/
def PyNum.pymin (a b : PyNum) : PyNum := if a.us ≤ b.us then a else b

instance : Min PyNum := ⟨PyNum.pymin⟩

/-- Python min clamps to the second argument when the first is at least as
large. -/
theorem PyNum.pymin_eq_right {a b : PyNum} (h : b ≤ a) : min a b = b := by
  obtain ⟨x⟩ := a
  obtain ⟨y⟩ := b
  have h2 : y ≤ x := h
  show PyNum.pymin ⟨x⟩ ⟨y⟩ = ⟨y⟩
  unfold PyNum.pymin
  split
  · next hxy =>
    have hxe : x = y := le_antisymm hxy h2
    rw [hxe]
  · rfl

/-- Python min of equal arguments. -/
theorem PyNum.pymin_self (a : PyNum) : min a a = a := by
  show PyNum.pymin a a = a
  unfold PyNum.pymin
  split <;> rfl

/-- Truncation toward minus infinity to whole seconds, as datetime field
extraction performs on the values in play. -/
def PyNum.floor (a : PyNum) : Int := a.us.fdiv 1000000

/-- A whole-second count as an embedded number (used for the host timezone
offset). -/
def PyNum.ofSeconds (n : Int) : PyNum := ⟨n * 1000000⟩

/-- JSON-like values as produced by the Slack Web API client. -/
inductive JVal where
  | jstr : String → JVal
  | jnum : PyNum → JVal
  | jbool : Bool → JVal
  | jarr : List JVal → JVal
  | jobj : List (String × JVal) → JVal
  | jnull : JVal

open JVal

/-- Python exceptions that the source can raise per call. -/
inductive PyError where
  | slackApiError : String → PyError
  | keyError : String → PyError
  | valueError : String → PyError
deriving DecidableEq

/-- Python str() of an exception, as interpolated by f"Error: {str(e)}":
str(KeyError(k)) is the repr of the key, i.e. quoted. -/
def PyError.pyMsg : PyError → String
  | .slackApiError c => c
  | .keyError k => "'" ++ k ++ "'"
  | .valueError m => m

/-- Key lookup in a JSON object (first binding wins, as Python dicts hold
unique keys). Returns none on a non-object receiver; the source only applies
.get to mapping values. -/
def JVal.lookup : JVal → String → Option JVal
  | .jobj kvs, k => kvs.lookup k
  | _, _ => none

/-- Python dict.get(k, d). -/
def JVal.getD (v : JVal) (k : String) (d : JVal) : JVal :=
  (v.lookup k).getD d

/-- Python subscript d[k]: raises KeyError when the key is absent. -/
def subscr (v : JVal) (k : String) : Except PyError JVal :=
  match v.lookup k with
  | some x => .ok x
  | none =>
    match v with
    | .jobj _ => .error (.keyError k)
    | _ => .error (.valueError "object is not subscriptable")

/-- Python truthiness. -/
def JVal.truthy : JVal → Bool
  | .jnull => false
  | .jbool b => b
  | .jnum q => q != 0
  | .jstr s => s != ""
  | .jarr l => !l.isEmpty
  | .jobj l => !l.isEmpty

/-- Iterating a JSON value in a for loop: only arrays are iterated by the
source; other shapes raise. -/
def expectArr (v : JVal) : Except PyError (List JVal) :=
  match v with
  | .jarr l => .ok l
  | _ => .error (.valueError "object is not iterable")

/-- Rendering of a number by a Python f-string. Integral values print with no
decimal part (tool arguments arrive as JSON integers); other values print
their decimal expansion with trailing zeros trimmed. -/
def pyNumStr (q : PyNum) : String :=
  if q.us % 1000000 = 0 then toString (q.us / 1000000)
  else
    let sign := if q.us < 0 then "-" else ""
    let a := q.us.natAbs
    let ip := a / 1000000
    let fr6 := a % 1000000
    let frDigits := (Nat.toDigits 10 (1000000 + fr6)).drop 1
    let trimmed := (frDigits.reverse.dropWhile (fun c => c = '0')).reverse
    sign ++ toString ip ++ "." ++ String.mk trimmed

/-- Python str() of a value as interpolated into the f-strings of the source.
Collections never reach an f-string in any behaviour studied here; their
Python repr-based rendering is abbreviated. -/
def pyStr : JVal → String
  | .jstr s => s
  | .jnum q => pyNumStr q
  | .jbool b => if b then "True" else "False"
  | .jnull => "None"
  | .jarr _ => "<list>"
  | .jobj _ => "<dict>"

/-- Digits of a character list read as a base-10 natural number. -/
def digitsToNat (l : List Char) : Nat :=
  l.foldl (fun a c => a * 10 + (c.toNat - 48)) 0

/-- Leading and trailing whitespace removal, as float() applies to its
argument (structural counterpart of str.strip). -/
def pyStrip (s : String) : String :=
  String.mk (((s.data.dropWhile Char.isWhitespace).reverse.dropWhile Char.isWhitespace).reverse)

/-- Python ts.replace(".", ""): removal of every dot, the only replace the
source performs (structural counterpart of str.replace for this pattern). -/
def removeDots (s : String) : String :=
  String.mk (s.data.filter fun c => c ≠ '.')

/-- Python sep.join(parts) (structural counterpart of str.join). -/
def pyJoin (sep : String) : List String → String
  | [] => ""
  | [x] => x
  | x :: rest => x ++ sep ++ pyJoin sep rest

/-- Count of the positions at which pat occurs in l (a structural substring
counter used to state occurrence properties of rendered output). -/
def occAux (pat : List Char) : List Char → Nat
  | [] => 0
  | c :: rest => (if pat.isPrefixOf (c :: rest) then 1 else 0) + occAux pat rest

/-- Number of occurrences of a non-empty pattern in a string. -/
def occurrences (pat s : String) : Nat :=
  occAux pat.data s.data

/-- Split a character list at the first dot. -/
def splitAtDot : List Char → (List Char × Option (List Char))
  | [] => ([], none)
  | c :: rest =>
    if c = '.' then ([], some rest)
    else
      let (a, b) := splitAtDot rest
      (c :: a, b)

/-- Python float(s) on a decimal literal: optional sign, digits with an
optional dot. Exotic accepted forms (exponents, inf/nan, underscores) do not
occur in the data shapes studied here. A non-numeric string raises ValueError
with the message Python prints. -/
def parseFloat (s : String) : Except PyError PyNum :=
  let fail : Except PyError PyNum :=
    .error (.valueError ("could not convert string to float: '" ++ s ++ "'"))
  let t := (pyStrip s).data
  let (neg, body) :=
    match t with
    | '-' :: rest => (true, rest)
    | '+' :: rest => (false, rest)
    | other => (false, other)
  let (ipart, fpartOpt) := splitAtDot body
  let fpart := fpartOpt.getD []
  if body.isEmpty then fail
  else if ipart.isEmpty ∧ fpart.isEmpty then fail
  else if ¬ (ipart.all Char.isDigit ∧ fpart.all Char.isDigit) then fail
  else
    let fr6 := fpart.take 6 ++ List.replicate (6 - (fpart.take 6).length) '0'
    let mag : PyNum := ⟨(digitsToNat ipart : Int) * 1000000 + (digitsToNat fr6 : Int)⟩
    .ok (if neg then -mag else mag)

/-- Python float(v) on the value shapes the source passes to it. -/
def pyFloat (v : JVal) : Except PyError PyNum :=
  match v with
  | .jnum q => .ok q
  | .jbool b => .ok (if b then 1 else 0)
  | .jstr s => parseFloat s
  | _ => .error (.valueError "float() argument must be a string or a real number")

/-- Civil date from a day count relative to 1970-01-01 (proleptic Gregorian). -/
def civilFromDays (z0 : Int) : Int × Nat × Nat :=
  let z := z0 + 719468
  let era : Int := (if 0 ≤ z then z else z - 146096) / 146097
  let doe : Nat := (z - era * 146097).toNat
  let yoe : Nat := (doe - doe / 1460 + doe / 36524 - doe / 146096) / 365
  let y : Int := era * 400 + yoe
  let doy : Nat := doe - (365 * yoe + yoe / 4 - yoe / 100)
  let mp : Nat := (5 * doy + 2) / 153
  let d : Nat := doy - (153 * mp + 2) / 5 + 1
  let m : Nat := if mp < 10 then mp + 3 else mp - 9
  (y + (if m ≤ 2 then 1 else 0), m, d)

/-- Two-digit zero padding. -/
def pad2 (n : Nat) : String :=
  if n < 10 then "0" ++ toString n else toString n

/-- Four-digit zero padding for years. -/
def pad4 (y : Int) : String :=
  if 0 ≤ y then
    let n := y.toNat
    if n < 10 then "000" ++ toString n
    else if n < 100 then "00" ++ toString n
    else if n < 1000 then "0" ++ toString n
    else toString n
  else "-" ++ toString (-y)

/-- strftime "%Y-%m-%d %H:%M:%S" of a datetime whose fields denote the given
whole-second count from the epoch. -/
def fmtYmdHms (s : Int) : String :=
  let days := Int.fdiv s 86400
  let sod := (s - days * 86400).toNat
  let ymd := civilFromDays days
  pad4 ymd.1 ++ "-" ++ pad2 ymd.2.1 ++ "-" ++ pad2 ymd.2.2 ++ " " ++
    pad2 (sod / 3600) ++ ":" ++ pad2 (sod % 3600 / 60) ++ ":" ++ pad2 (sod % 60)

/-- strftime "%Y-%m-%d" of such a datetime. -/
def fmtYmd (s : Int) : String :=
  let days := Int.fdiv s 86400
  let ymd := civilFromDays days
  pad4 ymd.1 ++ "-" ++ pad2 ymd.2.1 ++ "-" ++ pad2 ymd.2.2

/-- A numeric Python value in a context that requires a real number
(timedelta hours, fromtimestamp, min against an int literal). Booleans count
as numbers in Python; other shapes raise. -/
def pyNum (v : JVal) : Except PyError PyNum :=
  match v with
  | .jnum q => .ok q
  | .jbool b => .ok (if b then 1 else 0)
  | _ => .error (.valueError "unsupported operand type")

/-- One text content block of a tool result, TextContent(type="text", ...). -/
structure TextContent where
  type : String
  text : String
deriving DecidableEq

/-- Process environment consulted during a call: the host timezone offset in
seconds east of UTC, the current POSIX time, and SLACK_WORKSPACE_URL. -/
structure Env where
  tz : Int
  now : PyNum
  workspace_url : Option String

/-- The Slack WebClient as an oracle: one function per Web API method the
source invokes, returning the parsed JSON response or raising. The
conversations_list call site fixes exclude_archived=True and limit=1000, so
its oracle is keyed by the types argument alone. -/
structure SlackClient where
  conversations_info : String → Except PyError JVal
  conversations_history : String → PyNum → PyNum → Except PyError JVal
  conversations_replies : String → String → Except PyError JVal
  users_info : String → Except PyError JVal
  conversations_list : String → Except PyError JVal
  auth_test : Except PyError JVal
  search_messages : String → PyNum → Except PyError JVal
  chat_getPermalink : String → String → Except PyError JVal

/-- Default of os.getenv("SLACK_WORKSPACE_URL", ...). -/
def defaultWorkspace : String := "https://your-workspace.slack.com"

/-- Workspace base URL used to construct message permalinks. -/
def workspaceUrl (env : Env) : String :=
  env.workspace_url.getD defaultWorkspace

/-- datetime.fromtimestamp(x).strftime("%Y-%m-%d %H:%M:%S UTC") as used at
lines 265, 310 and 425: fromtimestamp converts the POSIX value to the HOST
timezone, the datetime keeps whole seconds in its second field, and the
format string appends the literal "UTC". -/
def formatMsgTime (tz : Int) (x : PyNum) : String :=
  fmtYmdHms (x.floor + tz) ++ " UTC"

/-- Python str attribute access for ts.replace: requires an actual string. -/
def expectStr (v : JVal) : Except PyError String :=
  match v with
  | .jstr s => .ok s
  | _ => .error (.valueError "object has no attribute replace")

/-- One reaction entry of a reactions list: f":{...}: ({...})" with
subscripts on the entry. -/
def renderReaction (r : JVal) : Except PyError String := do
  let n ← subscr r "name"
  let c ← subscr r "count"
  pure (":" ++ pyStr n ++ ": (" ++ pyStr c ++ ")")

/-- The reaction list comprehension of lines 284 and 320. -/
def renderReactions : List JVal → Except PyError (List String)
  | [] => .ok []
  | r :: rest => do
    let x ← renderReaction r
    let xs ← renderReactions rest
    pure (x :: xs)

/-- The subtype test of line 257: msg.get("subtype") in the bot/join/leave
list. A missing subtype compares unequal to every entry. -/
def isExcludedSubtype (msg : JVal) : Bool :=
  match msg.getD "subtype" jnull with
  | .jstr s => s == "bot_message" || s == "channel_join" || s == "channel_leave"
  | _ => false

/-- Body of the per-message rendering in read_channel_messages
(lines 260-288), applied to one non-excluded message. -/
def renderHistoryMessage (env : Env) (channel_id : String) (msg : JVal) :
    Except PyError String := do
  let user_id := msg.getD "user" (jstr "unknown")
  let ts := msg.getD "ts" (jstr "")
  let text := msg.getD "text" (jstr "")
  let tsf ← pyFloat ts
  let msg_time := formatMsgTime env.tz tsf
  let workspace_url := workspaceUrl env
  let tsStr ← expectStr ts
  let ts_clean := removeDots tsStr
  let msg_url := workspace_url ++ "/archives/" ++ channel_id ++ "/p" ++ ts_clean
  let formatted := "**Time:** " ++ msg_time ++ "\n"
  let formatted := formatted ++ ("**User:** <@" ++ pyStr user_id ++ ">\n")
  let formatted := formatted ++ ("**Link:** " ++ msg_url ++ "\n")
  let formatted :=
    if (msg.getD "thread_ts" jnull).truthy then
      formatted ++ ("**Thread:** Yes (replies: " ++ pyStr (msg.getD "reply_count" (jnum 0)) ++ ")\n")
    else formatted
  let formatted := formatted ++ ("**Message:**\n" ++ pyStr text ++ "\n")
  let formatted ←
    if (msg.getD "reactions" jnull).truthy then do
      let rs ← expectArr (← subscr msg "reactions")
      let parts ← renderReactions rs
      pure (formatted ++ ("**Reactions:** " ++ pyJoin ", " parts ++ "\n"))
    else pure formatted
  pure (formatted ++ "\n---\n")

/-- The message loop of read_channel_messages (lines 254-288): excluded
subtypes are skipped before any other field of the message is touched. -/
def renderHistoryMessages (env : Env) (channel_id : String) :
    List JVal → Except PyError (List String)
  | [] => .ok []
  | m :: rest =>
    if isExcludedSubtype m then renderHistoryMessages env channel_id rest
    else do
      let f ← renderHistoryMessage env channel_id m
      let fs ← renderHistoryMessages env channel_id rest
      pure (f :: fs)

/-- Lines 240-241: datetime.utcnow() - timedelta(hours=lookback_hours), then
.timestamp(). utcnow() yields a naive datetime carrying UTC fields, and
timestamp() on a naive datetime interprets those fields as HOST-LOCAL time,
so the POSIX value produced is the UTC-field value minus the host offset. -/
def historyOldestTs (env : Env) (lookback_hours : PyNum) : PyNum :=
  (env.now - lookback_hours * 3600) - PyNum.ofSeconds env.tz

/-- read_channel_messages (lines 233-294) up to the markdown string. -/
def read_channel_messages_text (env : Env) (c : SlackClient)
    (channel_id : String) (lookback_hours limit : PyNum) : Except PyError String := do
  let oldest_ts := historyOldestTs env lookback_hours
  let channel_info ← c.conversations_info channel_id
  let channel_name ← subscr (← subscr channel_info "channel") "name"
  let result ← c.conversations_history channel_id oldest_ts (min limit 1000)
  let msgs ← expectArr (← subscr result "messages")
  let messages ← renderHistoryMessages env channel_id msgs
  let summary := "# Messages from #" ++ pyStr channel_name ++ "\n"
  let summary := summary ++ ("Found " ++ toString messages.length ++
    " messages from the last " ++ pyNumStr lookback_hours ++ " hours\n\n")
  let summary := summary ++ String.join messages
  pure summary

/-- Wrap a rendered markdown string as the single TextContent block every
handler returns. -/
def wrap (e : Except PyError String) : Except PyError (List TextContent) :=
  e.map fun s => [{ type := "text", text := s }]

/-- Handler read_channel_messages. -/
def read_channel_messages (env : Env) (c : SlackClient)
    (channel_id : String) (lookback_hours limit : PyNum) : Except PyError (List TextContent) :=
  wrap (read_channel_messages_text env c channel_id lookback_hours limit)

/-- Per-message rendering of read_thread_messages (lines 305-324) at
enumeration index idx. -/
def renderThreadMessage (env : Env) (idx : Nat) (msg : JVal) :
    Except PyError String := do
  let user_id := msg.getD "user" (jstr "unknown")
  let ts := msg.getD "ts" (jstr "")
  let text := msg.getD "text" (jstr "")
  let tsf ← pyFloat ts
  let msg_time := formatMsgTime env.tz tsf
  let label := if idx = 0 then "**[PARENT]**" else "**[REPLY " ++ toString idx ++ "]**"
  let formatted := label ++ "\n"
  let formatted := formatted ++ ("**Time:** " ++ msg_time ++ "\n")
  let formatted := formatted ++ ("**User:** <@" ++ pyStr user_id ++ ">\n")
  let formatted := formatted ++ ("**Message:**\n" ++ pyStr text ++ "\n")
  let formatted ←
    if (msg.getD "reactions" jnull).truthy then do
      let rs ← expectArr (← subscr msg "reactions")
      let parts ← renderReactions rs
      pure (formatted ++ ("**Reactions:** " ++ pyJoin ", " parts ++ "\n"))
    else pure formatted
  pure (formatted ++ "\n---\n")

/-- The enumerate loop of read_thread_messages, carrying the enumeration
index. -/
def renderThreadMessages (env : Env) (idx : Nat) :
    List JVal → Except PyError (List String)
  | [] => .ok []
  | m :: rest => do
    let f ← renderThreadMessage env idx m
    let fs ← renderThreadMessages env (idx + 1) rest
    pure (f :: fs)

/-- read_thread_messages (lines 297-333) up to the markdown string. -/
def read_thread_messages_text (env : Env) (c : SlackClient)
    (channel_id thread_ts : String) : Except PyError String := do
  let result ← c.conversations_replies channel_id thread_ts
  let msgs ← expectArr (← subscr result "messages")
  let messages ← renderThreadMessages env 0 msgs
  let workspace_url := workspaceUrl env
  let thread_url := workspace_url ++ "/archives/" ++ channel_id ++ "/p" ++ removeDots thread_ts
  let summary := "# Thread Messages\n"
  let summary := summary ++ ("**Link:** " ++ thread_url ++ "\n")
  let summary := summary ++ ("**Total messages:** " ++ toString messages.length ++ "\n\n")
  let summary := summary ++ String.join messages
  pure summary

/-- Handler read_thread_messages. -/
def read_thread_messages (env : Env) (c : SlackClient)
    (channel_id thread_ts : String) : Except PyError (List TextContent) :=
  wrap (read_thread_messages_text env c channel_id thread_ts)

/-- get_channel_info (lines 336-355) up to the markdown string. The topic and
purpose subscripts run only under their truthiness guards, so they are total
there. -/
def get_channel_info_text (env : Env) (c : SlackClient)
    (channel_id : String) : Except PyError String := do
  let result ← c.conversations_info channel_id
  let channel ← subscr result "channel"
  let createdNum ← pyNum (channel.getD "created" (jnum 0))
  let info := "# Channel Information\n\n"
  let info := info ++ ("**Name:** #" ++ pyStr (channel.getD "name" jnull) ++ "\n")
  let info := info ++ ("**ID:** " ++ pyStr (channel.getD "id" jnull) ++ "\n")
  let info := info ++ ("**Created:** " ++ fmtYmd (createdNum.floor + env.tz) ++ "\n")
  let info := info ++ ("**Members:** " ++ pyStr (channel.getD "num_members" (jstr "N/A")) ++ "\n")
  let info := info ++ ("**Is Private:** " ++ pyStr (channel.getD "is_private" (jbool false)) ++ "\n")
  let info := info ++ ("**Is Archived:** " ++ pyStr (channel.getD "is_archived" (jbool false)) ++ "\n")
  let info :=
    if ((channel.getD "topic" (jobj [])).getD "value" jnull).truthy then
      info ++ ("**Topic:** " ++ pyStr ((channel.getD "topic" (jobj [])).getD "value" jnull) ++ "\n")
    else info
  let info :=
    if ((channel.getD "purpose" (jobj [])).getD "value" jnull).truthy then
      info ++ ("**Purpose:** " ++ pyStr ((channel.getD "purpose" (jobj [])).getD "value" jnull) ++ "\n")
    else info
  pure info

/-- Handler get_channel_info. -/
def get_channel_info (env : Env) (c : SlackClient) (channel_id : String) :
    Except PyError (List TextContent) :=
  wrap (get_channel_info_text env c channel_id)

/-- get_user_info (lines 358-375) up to the markdown string. No timestamp or
workspace value is consulted, so the environment plays no role. -/
def get_user_info_text (c : SlackClient) (user_id : String) :
    Except PyError String := do
  let result ← c.users_info user_id
  let user ← subscr result "user"
  let profile := user.getD "profile" (jobj [])
  let info := "# User Information\n\n"
  let info := info ++ ("**Name:** " ++ pyStr (user.getD "real_name" (user.getD "name" jnull)) ++ "\n")
  let info := info ++ ("**ID:** " ++ pyStr (user.getD "id" jnull) ++ "\n")
  let info := info ++ ("**Display Name:** @" ++ pyStr (user.getD "name" jnull) ++ "\n")
  let info := info ++ ("**Email:** " ++ pyStr (profile.getD "email" (jstr "N/A")) ++ "\n")
  let info := info ++ ("**Title:** " ++ pyStr (profile.getD "title" (jstr "N/A")) ++ "\n")
  let info := info ++ ("**Status:** " ++ pyStr (profile.getD "status_text" (jstr "N/A")) ++ "\n")
  let info := info ++ ("**Timezone:** " ++ pyStr (user.getD "tz_label" (jstr "N/A")) ++ "\n")
  let info := info ++ ("**Is Admin:** " ++ pyStr (user.getD "is_admin" (jbool false)) ++ "\n")
  let info := info ++ ("**Is Bot:** " ++ pyStr (user.getD "is_bot" (jbool false)) ++ "\n")
  pure info

/-- Handler get_user_info. -/
def get_user_info (c : SlackClient) (user_id : String) :
    Except PyError (List TextContent) :=
  wrap (get_user_info_text c user_id)

/-- One line of the channel listing (lines 387-394); every field access is a
defaulted .get, so the rendering is total. The two glyph literals reproduce
the source file's bytes. -/
def channelLine (channel : JVal) : String :=
  let name := channel.getD "name" (jstr "unknown")
  let channel_id := channel.getD "id" jnull
  let members := channel.getD "num_members" (jnum 0)
  let is_private := if (channel.getD "is_private" jnull).truthy then "ðŸ”’" else "ðŸŒ"
  "- " ++ is_private ++ " **#" ++ pyStr name ++ "** (`" ++ pyStr channel_id ++ "`) - " ++ pyStr members ++ " members"

/-- list_my_channels (lines 378-400) up to the markdown string. -/
def list_my_channels_text (c : SlackClient) (types : String) :
    Except PyError String := do
  let result ← c.conversations_list types
  let chans ← expectArr (← subscr result "channels")
  let lines := (chans.filter fun ch => (ch.getD "is_member" jnull).truthy).map channelLine
  let summary := "# Your Channels\n"
  let summary := summary ++ ("Found " ++ toString lines.length ++ " channels you're a member of:\n\n")
  let summary := summary ++ pyJoin "\n" lines
  pure summary

/-- Handler list_my_channels. -/
def list_my_channels (c : SlackClient) (types : String) :
    Except PyError (List TextContent) :=
  wrap (list_my_channels_text c types)

/-- Per-match rendering of search_my_conversations (lines 418-434). -/
def renderSearchMatch (env : Env) (mtch : JVal) : Except PyError String := do
  let channel_name := (mtch.getD "channel" (jobj [])).getD "name" (jstr "unknown")
  let user := mtch.getD "user" (jstr "unknown")
  let text := mtch.getD "text" (jstr "")
  let ts := mtch.getD "ts" (jstr "")
  let permalink := mtch.getD "permalink" (jstr "")
  let tsf ← pyFloat ts
  let msg_time := formatMsgTime env.tz tsf
  let formatted := "**Channel:** #" ++ pyStr channel_name ++ "\n"
  let formatted := formatted ++ ("**User:** <@" ++ pyStr user ++ ">\n")
  let formatted := formatted ++ ("**Time:** " ++ msg_time ++ "\n")
  let formatted := formatted ++ ("**Link:** " ++ pyStr permalink ++ "\n")
  let formatted := formatted ++ ("**Message:**\n" ++ pyStr text ++ "\n")
  pure (formatted ++ "\n---\n")

/-- The match loop of search_my_conversations. -/
def renderSearchMatches (env : Env) : List JVal → Except PyError (List String)
  | [] => .ok []
  | m :: rest => do
    let f ← renderSearchMatch env m
    let fs ← renderSearchMatches env rest
    pure (f :: fs)

/-- search_my_conversations (lines 403-442) up to the markdown string: one
auth_test call resolving the caller identity, one search_messages call with
the mention appended to the query and the count capped at 100, then the
rendered header and matches. -/
def search_my_conversations_text (env : Env) (c : SlackClient)
    (query : String) (count : PyNum) : Except PyError String := do
  let auth_result ← c.auth_test
  let user_id ← subscr auth_result "user_id"
  let search_query := query ++ " <@" ++ pyStr user_id ++ ">"
  let result ← c.search_messages search_query (min count 100)
  let matchList ← expectArr (← subscr (← subscr result "messages") "matches")
  let messages ← renderSearchMatches env matchList
  let total ← subscr (← subscr result "messages") "total"
  let summary := "# Search Results\n"
  let summary := summary ++ ("Query: '" ++ query ++ "' (including mentions of you)\n")
  let summary := summary ++ ("Found " ++ pyStr total ++ " total matches, showing " ++
    toString messages.length ++ " results:\n\n")
  let summary := summary ++ String.join messages
  pure summary

/-- Handler search_my_conversations. -/
def search_my_conversations (env : Env) (c : SlackClient)
    (query : String) (count : PyNum) : Except PyError (List TextContent) :=
  wrap (search_my_conversations_text env c query count)

/-- get_message_permalink (lines 445-455) up to the markdown string. -/
def get_message_permalink_text (c : SlackClient)
    (channel_id message_ts : String) : Except PyError String := do
  let result ← c.chat_getPermalink channel_id message_ts
  let permalink ← subscr result "permalink"
  pure ("# Message Permalink\n\n**Link:** " ++ pyStr permalink)

/-- Handler get_message_permalink. -/
def get_message_permalink (c : SlackClient) (channel_id message_ts : String) :
    Except PyError (List TextContent) :=
  wrap (get_message_permalink_text c channel_id message_ts)

/-- Known-name routing of call_tool (lines 183-220), before the except
clauses: argument extraction (raising KeyError on a missing required key,
applying the documented defaults otherwise) followed by the handler body.
The unknown-name arm is an ordinary return of an informational block, not an
exception. -/
def dispatch (env : Env) (c : SlackClient) (name : String) (arguments : JVal) :
    Except PyError (List TextContent) :=
  if name = "read_channel_messages" then do
    let ch ← subscr arguments "channel_id"
    let lh ← pyNum (arguments.getD "lookback_hours" (jnum 24))
    let l ← pyNum (arguments.getD "limit" (jnum 100))
    read_channel_messages env c (pyStr ch) lh l
  else if name = "read_thread_messages" then do
    let ch ← subscr arguments "channel_id"
    let tts ← subscr arguments "thread_ts"
    read_thread_messages env c (pyStr ch) (pyStr tts)
  else if name = "get_channel_info" then do
    let ch ← subscr arguments "channel_id"
    get_channel_info env c (pyStr ch)
  else if name = "get_user_info" then do
    let uid ← subscr arguments "user_id"
    get_user_info c (pyStr uid)
  else if name = "list_my_channels" then
    list_my_channels c (pyStr (arguments.getD "types" (jstr "public_channel,private_channel")))
  else if name = "search_my_conversations" then do
    let q ← subscr arguments "query"
    let k ← pyNum (arguments.getD "count" (jnum 20))
    search_my_conversations env c (pyStr q) k
  else if name = "get_message_permalink" then do
    let ch ← subscr arguments "channel_id"
    let mts ← subscr arguments "message_ts"
    get_message_permalink c (pyStr ch) (pyStr mts)
  else
    .ok [{ type := "text", text := "Unknown tool: " ++ name }]

/-- call_tool including its try/except boundary (lines 179-230): a
SlackApiError renders its reported error code after "Slack API error: ", any
other exception renders str(e) after "Error: ", and every path returns a
block list rather than raising. -/
def call_tool (env : Env) (c : SlackClient) (name : String) (arguments : JVal) :
    List TextContent :=
  match dispatch env c name arguments with
  | .ok r => r
  | .error (.slackApiError code) =>
    [{ type := "text", text := "Slack API error: " ++ code }]
  | .error e =>
    [{ type := "text", text := "Error: " ++ e.pyMsg }]

/-! Concrete fixtures used to instantiate the theorems below. -/

/-- A client on which every method reports a remote API failure. -/
def baseClient : SlackClient where
  conversations_info := fun _ => .error (.slackApiError "not_implemented")
  conversations_history := fun _ _ _ => .error (.slackApiError "not_implemented")
  conversations_replies := fun _ _ => .error (.slackApiError "not_implemented")
  users_info := fun _ => .error (.slackApiError "not_implemented")
  conversations_list := fun _ => .error (.slackApiError "not_implemented")
  auth_test := .error (.slackApiError "not_implemented")
  search_messages := fun _ _ => .error (.slackApiError "not_implemented")
  chat_getPermalink := fun _ _ => .error (.slackApiError "not_implemented")

/-- Host running at UTC (offset 0) at a fixed instant. -/
def fixEnv : Env := { tz := 0, now := 1700000000, workspace_url := some "https://acme.slack.com" }

/-- An ordinary channel message. -/
def ordMsg1 : JVal :=
  jobj [("user", jstr "U1"), ("ts", jstr "1699999999.000100"), ("text", jstr "hello")]

/-- An ordinary channel message carrying a thread marker and a reaction. -/
def ordMsg2 : JVal :=
  jobj [("user", jstr "U2"), ("ts", jstr "1699990000.5"), ("text", jstr "world"),
    ("thread_ts", jstr "1699990000.5"), ("reply_count", jnum 2),
    ("reactions", jarr [jobj [("name", jstr "eyes"), ("count", jnum 3)]])]

/-- A bot message, to be excluded from history rendering. -/
def botMsg : JVal :=
  jobj [("subtype", jstr "bot_message"), ("user", jstr "B1"),
    ("ts", jstr "1699999998.0"), ("text", jstr "bot")]

/-- A join notice, to be excluded from history rendering. -/
def joinMsg : JVal :=
  jobj [("subtype", jstr "channel_join"), ("user", jstr "U3"),
    ("ts", jstr "1699999997.0"), ("text", jstr "joined")]

/-- A leave notice, to be excluded from history rendering. -/
def leaveMsg : JVal :=
  jobj [("subtype", jstr "channel_leave"), ("user", jstr "U4"),
    ("ts", jstr "1699999996.0"), ("text", jstr "left")]

/-- History fixture: one of each excluded subtype alongside two ordinary
messages. -/
def historyFixtureMsgs : List JVal := [ordMsg1, botMsg, joinMsg, leaveMsg, ordMsg2]

/-- Client serving the history fixture for channel C1. -/
def historyClient : SlackClient := { baseClient with
  conversations_info := fun ch =>
    if ch = "C1" then .ok (jobj [("channel", jobj [("name", jstr "general")])])
    else .error (.slackApiError "channel_not_found"),
  conversations_history := fun _ _ _ => .ok (jobj [("messages", jarr historyFixtureMsgs)]) }

/-- Client whose history holds a single message that lacks a ts field. -/
def noTsClient : SlackClient := { historyClient with
  conversations_history := fun _ _ _ =>
    .ok (jobj [("messages", jarr [jobj [("user", jstr "U1"), ("text", jstr "hi")]])]) }

/-- Thread fixture: one parent and two replies. -/
def threadFixtureMsgs : List JVal :=
  [jobj [("user", jstr "U1"), ("ts", jstr "1699990000.5"), ("text", jstr "parent")],
   jobj [("user", jstr "U2"), ("ts", jstr "1699990001.0"), ("text", jstr "r1")],
   jobj [("user", jstr "U3"), ("ts", jstr "1699990002.0"), ("text", jstr "r2")]]

/-- Client serving the thread fixture. -/
def threadClient : SlackClient := { baseClient with
  conversations_replies := fun _ _ => .ok (jobj [("messages", jarr threadFixtureMsgs)]) }

/-- User fixture lacking a profile email. -/
def noEmailUser : JVal :=
  jobj [("name", jstr "steven"), ("id", jstr "U9"),
    ("profile", jobj [("title", jstr "eng")])]

/-- Client serving the email-less user fixture. -/
def noEmailClient : SlackClient := { baseClient with
  users_info := fun _ => .ok (jobj [("user", noEmailUser)]) }

/-- Client resolving the caller to U9 and answering exactly one search query:
the supplied query with the U9 mention appended, at the capped count. -/
def searchClient : SlackClient := { baseClient with
  auth_test := .ok (jobj [("user_id", jstr "U9")]),
  search_messages := fun q k =>
    if q == "deploy <@U9>" && k == 20 then
      .ok (jobj [("messages", jobj [("matches", jarr [ordMsg1]), ("total", jnum 42)])])
    else .error (.slackApiError "unexpected_call") }

/-- POSIX timestamp of a message, as used by a faithful remote filter. -/
def msgTsVal (m : JVal) : PyNum :=
  match m.getD "ts" jnull with
  | .jstr s => match parseFloat s with | .ok q => q | .error _ => 0
  | .jnum q => q
  | _ => 0

/-- Channel content for the lookback fixture: one message thirty minutes
before the fixed now. -/
def lookbackChannelMsgs : List JVal :=
  [jobj [("user", jstr "U1"), ("ts", jstr "1699998200.0"), ("text", jstr "recent")]]

/-- A client honoring the Slack history contract: it returns exactly the
channel messages strictly newer than the requested oldest bound. -/
def honoringClient : SlackClient := { historyClient with
  conversations_history := fun _ oldest _ =>
    .ok (jobj [("messages", jarr (lookbackChannelMsgs.filter fun m => oldest < msgTsVal m))]) }

/-- Host at UTC offset +3600 s (for example central Europe in winter) at the
same fixed instant. -/
def cetEnv : Env := { tz := 3600, now := 1700000000, workspace_url := none }

/-! Helper lemmas. -/

/-- Inversion of a successful Except bind. -/
theorem exceptBind_ok {α β : Type} (x : Except PyError α) (f : α → Except PyError β)
    (r : β) (h : x >>= f = .ok r) : ∃ a, x = .ok a ∧ f a = .ok r := by
  cases x with
  | ok a => exact ⟨a, rfl, h⟩
  | error e => simp [Bind.bind, Except.bind] at h

/-- A successful wrapped handler result is a single block. -/
theorem wrap_ok_length (e : Except PyError String) (r : List TextContent)
    (h : wrap e = .ok r) : r.length = 1 := by
  cases e with
  | ok s =>
    simp only [wrap, Except.map] at h
    cases h
    rfl
  | error err => simp [wrap, Except.map] at h

/-- Every successful dispatch result is a single block: each handler wraps
one markdown string, and the unknown-name arm returns one block. -/
theorem dispatch_ok_length (env : Env) (c : SlackClient) (name : String)
    (args : JVal) (r : List TextContent) (h : dispatch env c name args = .ok r) :
    r.length = 1 := by
  unfold dispatch at h
  split at h
  · obtain ⟨a, _, h⟩ := exceptBind_ok _ _ _ h
    obtain ⟨b, _, h⟩ := exceptBind_ok _ _ _ h
    obtain ⟨d, _, h⟩ := exceptBind_ok _ _ _ h
    exact wrap_ok_length _ _ h
  split at h
  · obtain ⟨a, _, h⟩ := exceptBind_ok _ _ _ h
    obtain ⟨b, _, h⟩ := exceptBind_ok _ _ _ h
    exact wrap_ok_length _ _ h
  split at h
  · obtain ⟨a, _, h⟩ := exceptBind_ok _ _ _ h
    exact wrap_ok_length _ _ h
  split at h
  · obtain ⟨a, _, h⟩ := exceptBind_ok _ _ _ h
    exact wrap_ok_length _ _ h
  split at h
  · exact wrap_ok_length _ _ h
  split at h
  · obtain ⟨a, _, h⟩ := exceptBind_ok _ _ _ h
    obtain ⟨b, _, h⟩ := exceptBind_ok _ _ _ h
    exact wrap_ok_length _ _ h
  split at h
  · obtain ⟨a, _, h⟩ := exceptBind_ok _ _ _ h
    obtain ⟨b, _, h⟩ := exceptBind_ok _ _ _ h
    exact wrap_ok_length _ _ h
  · cases h
    rfl

/-! Claim theorems. -/

/-- C1: call_tool is a total function into block lists — no exception crosses
the tool-call boundary — and on any dispatch or handler failure it returns
the dispatch result itself when that succeeded, a single block
"Slack API error: <code>" carrying the reported error code when the failure
is a structured remote-API error, and a single block "Error: <message>" for
any other failure. -/
theorem call_tool_error_boundary (env : Env) (c : SlackClient) (name : String)
    (args : JVal) :
    dispatch env c name args = .ok (call_tool env c name args)
    ∨ (∃ code, dispatch env c name args = .error (.slackApiError code) ∧
        call_tool env c name args =
          [{ type := "text", text := "Slack API error: " ++ code }])
    ∨ (∃ e, dispatch env c name args = .error e ∧
        (∀ code, e ≠ PyError.slackApiError code) ∧
        call_tool env c name args =
          [{ type := "text", text := "Error: " ++ e.pyMsg }]) := by
  unfold call_tool
  cases h : dispatch env c name args with
  | ok r => left; rfl
  | error e =>
    cases e with
    | slackApiError code => right; left; exact ⟨code, rfl, rfl⟩
    | keyError k =>
      right; right
      refine ⟨.keyError k, rfl, ?_, rfl⟩
      intro code hc
      cases hc
    | valueError m =>
      right; right
      refine ⟨.valueError m, rfl, ?_, rfl⟩
      intro code hc
      cases hc

/-- C10: every tool call — any name, argument mapping and remote outcome —
returns exactly one text block. -/
theorem call_tool_single_block (env : Env) (c : SlackClient) (name : String)
    (args : JVal) : (call_tool env c name args).length = 1 := by
  unfold call_tool
  cases h : dispatch env c name args with
  | ok r => exact dispatch_ok_length env c name args r h
  | error e => cases e <;> rfl

/-- C7: an unrecognized tool name is answered through the ordinary success
path with exactly one informational block naming the tool; no exception is
raised and no error-kind rendering is involved. -/
theorem unknown_tool_informational (env : Env) (c : SlackClient) (name : String)
    (args : JVal)
    (h : name ∉ (["read_channel_messages", "read_thread_messages",
      "get_channel_info", "get_user_info", "list_my_channels",
      "search_my_conversations", "get_message_permalink"] : List String)) :
    dispatch env c name args =
      .ok [{ type := "text", text := "Unknown tool: " ++ name }] ∧
    call_tool env c name args =
      [{ type := "text", text := "Unknown tool: " ++ name }] := by
  simp only [List.mem_cons, not_or] at h
  obtain ⟨h1, h2, h3, h4, h5, h6, h7, -⟩ := h
  have hd : dispatch env c name args =
      .ok [{ type := "text", text := "Unknown tool: " ++ name }] := by
    unfold dispatch
    rw [if_neg h1, if_neg h2, if_neg h3, if_neg h4, if_neg h5, if_neg h6, if_neg h7]
  refine ⟨hd, ?_⟩
  unfold call_tool
  rw [hd]

/-- Witness for C7 at the concrete name "bogus". -/
theorem unknown_tool_informational_witness :
    "bogus" ∉ (["read_channel_messages", "read_thread_messages",
      "get_channel_info", "get_user_info", "list_my_channels",
      "search_my_conversations", "get_message_permalink"] : List String) ∧
    dispatch fixEnv baseClient "bogus" (jobj []) =
      .ok [{ type := "text", text := "Unknown tool: " ++ "bogus" }] ∧
    call_tool fixEnv baseClient "bogus" (jobj []) =
      [{ type := "text", text := "Unknown tool: " ++ "bogus" }] :=
  ⟨by decide,
   (unknown_tool_informational fixEnv baseClient "bogus" (jobj []) (by decide)).1,
   (unknown_tool_informational fixEnv baseClient "bogus" (jobj []) (by decide)).2⟩

/-- C2: the limit passed to the history call and the count passed to the
search call are clamped at the hard maxima: any limit at or above 1000
behaves exactly as 1000, and any count at or above 100 behaves exactly as
100, against every client. -/
theorem limit_count_clamped :
    (∀ (env : Env) (c : SlackClient) (ch : String) (lh l : PyNum),
      (1000 : PyNum) ≤ l →
      read_channel_messages env c ch lh l = read_channel_messages env c ch lh 1000)
    ∧ (∀ (env : Env) (c : SlackClient) (q : String) (k : PyNum),
      (100 : PyNum) ≤ k →
      search_my_conversations env c q k = search_my_conversations env c q 100) := by
  constructor
  · intro env c ch lh l hl
    unfold read_channel_messages read_channel_messages_text
    rw [PyNum.pymin_eq_right hl, PyNum.pymin_self]
  · intro env c q k hk
    unfold search_my_conversations search_my_conversations_text
    rw [PyNum.pymin_eq_right hk, PyNum.pymin_self]

/-- Witness for C2: limit 5000 behaves as 1000 and count 500 behaves as 100
on the concrete fixtures. -/
theorem limit_count_clamped_witness :
    ((1000 : PyNum) ≤ 5000 ∧
      read_channel_messages fixEnv historyClient "C1" 24 5000 =
        read_channel_messages fixEnv historyClient "C1" 24 1000) ∧
    ((100 : PyNum) ≤ 500 ∧
      search_my_conversations fixEnv searchClient "deploy" 500 =
        search_my_conversations fixEnv searchClient "deploy" 100) :=
  ⟨⟨by decide, limit_count_clamped.1 fixEnv historyClient "C1" 24 5000 (by decide)⟩,
   ⟨by decide, limit_count_clamped.2 fixEnv searchClient "deploy" 500 (by decide)⟩⟩

/-- C3: the history loop is insensitive to messages whose subtype is
bot_message, channel_join or channel_leave — rendering a list equals
rendering the list with those messages removed — and on the fixture holding
one of each excluded subtype alongside two ordinary messages, exactly two
messages render and the header reports "Found 2 messages". -/
theorem history_subtype_filter :
    (∀ (env : Env) (cid : String) (msgs : List JVal),
      renderHistoryMessages env cid msgs =
        renderHistoryMessages env cid (msgs.filter fun m => !(isExcludedSubtype m)))
    ∧ (renderHistoryMessages fixEnv "C1" historyFixtureMsgs).map List.length = .ok 2
    ∧ (∃ s, read_channel_messages_text fixEnv historyClient "C1" 24 100 = .ok s ∧
        occurrences "Found 2 messages from the last 24 hours" s = 1) := by
  refine ⟨?_, rfl,
    ⟨(read_channel_messages_text fixEnv historyClient "C1" 24 100).toOption.getD "",
      rfl, by decide⟩⟩
  intro env cid msgs
  induction msgs with
  | nil => rfl
  | cons m rest ih =>
    by_cases hm : isExcludedSubtype m
    · simp [renderHistoryMessages, hm, ih]
    · simp [renderHistoryMessages, hm, ih]

/-- C4 (code bug): the rendered message time is not a deterministic UTC
value. datetime.fromtimestamp converts to the host timezone while the format
string appends a literal "UTC": epoch second 0 renders 00:00:00 on a UTC
host but 01:00:00 on a host at offset +3600 s, and the divergent string
flows into the rendered thread message. -/
theorem msg_time_depends_on_host_timezone :
    formatMsgTime 0 0 = "1970-01-01 00:00:00 UTC" ∧
    formatMsgTime 3600 0 = "1970-01-01 01:00:00 UTC" ∧
    formatMsgTime 3600 0 ≠ formatMsgTime 0 0 ∧
    (∃ s, renderThreadMessage cetEnv 0 (jobj [("ts", jstr "0")]) = .ok s ∧
      occurrences "1970-01-01 01:00:00 UTC" s = 1 ∧
      occurrences "1970-01-01 00:00:00 UTC" s = 0) :=
  ⟨by decide, by decide, by decide,
   ⟨(renderThreadMessage cetEnv 0 (jobj [("ts", jstr "0")])).toOption.getD "",
     rfl, by decide, by decide⟩⟩

theorem renderThreadMessage_label (env : Env) (idx : Nat) (msg : JVal) (f : String)
    (h : renderThreadMessage env idx msg = .ok f) :
    ∃ rest, f = (if idx = 0 then "**[PARENT]**" else "**[REPLY " ++ toString idx ++ "]**") ++ rest := by
  unfold renderThreadMessage at h
  obtain ⟨tsf, htsf, h⟩ := exceptBind_ok _ _ _ h
  generalize hL : (if idx = 0 then "**[PARENT]**" else "**[REPLY " ++ toString idx ++ "]**") = L at h ⊢
  split at h
  · obtain ⟨v, hv, h⟩ := exceptBind_ok _ _ _ h
    obtain ⟨rs, hrs, h⟩ := exceptBind_ok _ _ _ h
    obtain ⟨parts, hparts, h⟩ := exceptBind_ok _ _ _ h
    obtain ⟨y, hy, h⟩ := exceptBind_ok _ _ _ h
    simp only [pure, Except.pure] at hy h
    cases hy
    cases h
    refine ⟨"\n" ++ ("**Time:** " ++ formatMsgTime env.tz tsf ++ "\n") ++
      ("**User:** <@" ++ pyStr (msg.getD "user" (jstr "unknown")) ++ ">\n") ++
      ("**Message:**\n" ++ pyStr (msg.getD "text" (jstr "")) ++ "\n") ++
      ("**Reactions:** " ++ pyJoin ", " parts ++ "\n") ++ "\n---\n", ?_⟩
    simp [String.append_assoc]
  · obtain ⟨y, hy, h⟩ := exceptBind_ok _ _ _ h
    simp only [pure, Except.pure] at hy h
    cases hy
    cases h
    refine ⟨"\n" ++ ("**Time:** " ++ formatMsgTime env.tz tsf ++ "\n") ++
      ("**User:** <@" ++ pyStr (msg.getD "user" (jstr "unknown")) ++ ">\n") ++
      ("**Message:**\n" ++ pyStr (msg.getD "text" (jstr "")) ++ "\n") ++ "\n---\n", ?_⟩
    simp [String.append_assoc]

theorem renderThreadMessages_spec (env : Env) :
    ∀ (msgs : List JVal) (idx : Nat) (out : List String),
      renderThreadMessages env idx msgs = .ok out →
      out.length = msgs.length ∧
      ∀ i, i < out.length →
        renderThreadMessage env (idx + i) (msgs.getD i jnull) = .ok (out.getD i "") ∧
        ∃ rest, out.getD i "" =
          (if idx + i = 0 then "**[PARENT]**"
           else "**[REPLY " ++ toString (idx + i) ++ "]**") ++ rest := by
  intro msgs
  induction msgs with
  | nil =>
    intro idx out h
    simp only [renderThreadMessages] at h
    cases h
    exact ⟨rfl, fun i hi => absurd hi (by simp)⟩
  | cons m rest ih =>
    intro idx out h
    simp only [renderThreadMessages] at h
    obtain ⟨f, hf, h⟩ := exceptBind_ok _ _ _ h
    obtain ⟨fs, hfs, h⟩ := exceptBind_ok _ _ _ h
    simp only [pure, Except.pure] at h
    cases h
    obtain ⟨hlen, hall⟩ := ih (idx + 1) fs hfs
    refine ⟨by simp [hlen], ?_⟩
    intro i hi
    cases i with
    | zero =>
      constructor
      · simpa using hf
      · simpa using renderThreadMessage_label env idx m f hf
    | succ j =>
      have hj : j < fs.length := by simpa using hi
      have hgot := hall j hj
      have harith : idx + 1 + j = idx + (j + 1) := by omega
      constructor
      · simpa [harith] using hgot.1
      · simpa [harith] using hgot.2

/-- C5: in thread rendering, block i of a successful render is the rendering
of message i of the remote response (original order), the first block is
labeled "[PARENT]" and block n for n past 0 is labeled "[REPLY n]"; on the
fixture thread of one parent and two replies, the output contains exactly one
"[PARENT]" label and exactly the labels "[REPLY 1]" and "[REPLY 2]". -/
theorem thread_parent_reply_labels :
    (∀ (env : Env) (msgs : List JVal) (out : List String),
      renderThreadMessages env 0 msgs = .ok out →
      out.length = msgs.length ∧
      ∀ i, i < out.length →
        renderThreadMessage env i (msgs.getD i jnull) = .ok (out.getD i "") ∧
        ∃ rest, out.getD i "" =
          (if i = 0 then "**[PARENT]**" else "**[REPLY " ++ toString i ++ "]**") ++ rest)
    ∧ (∃ s, read_thread_messages_text fixEnv threadClient "C1" "1699990000.5" = .ok s ∧
        occurrences "**[PARENT]**" s = 1 ∧
        occurrences "**[REPLY 1]**" s = 1 ∧
        occurrences "**[REPLY 2]**" s = 1 ∧
        occurrences "**[REPLY " s = 2) := by
  constructor
  · intro env msgs out h
    have hs := renderThreadMessages_spec env msgs 0 out h
    simpa using hs
  · exact ⟨(read_thread_messages_text fixEnv threadClient "C1" "1699990000.5").toOption.getD "",
      rfl, by decide, by decide, by decide, by decide⟩

/-- Witness for C5: the fixture thread render succeeds and block 1 is the
rendering of reply 1, labeled "[REPLY 1]". -/
theorem thread_parent_reply_labels_witness :
    ∃ out, renderThreadMessages fixEnv 0 threadFixtureMsgs = .ok out ∧
      1 < out.length ∧
      renderThreadMessage fixEnv 1 (threadFixtureMsgs.getD 1 jnull) = .ok (out.getD 1 "") ∧
      ∃ rest, out.getD 1 "" = "**[REPLY " ++ toString 1 ++ "]**" ++ rest := by
  have h : renderThreadMessages fixEnv 0 threadFixtureMsgs =
      .ok ((renderThreadMessages fixEnv 0 threadFixtureMsgs).toOption.getD []) := rfl
  obtain ⟨hlen, hall⟩ := thread_parent_reply_labels.1 fixEnv threadFixtureMsgs _ h
  have h1 := hall 1 (by decide)
  exact ⟨_, h, by decide, h1.1, by simpa using h1.2⟩

/-- C6 counterexample: a history message carrying no ts field does not
degrade gracefully — float("") raises, the handler aborts, and the call
returns an error block instead of succeeding. -/
theorem missing_ts_aborts_call :
    call_tool fixEnv noTsClient "read_channel_messages" (jobj [("channel_id", jstr "C1")]) =
      [{ type := "text", text := "Error: could not convert string to float: ''" }] := rfl

/-- C6 amended: optional remote fields other than a message timestamp degrade
gracefully. get_user_info succeeds on any well-shaped user record and renders
"**Email:** N/A" when profile.email is absent, and a history message carrying
only a parsable ts still renders, with the placeholder author "unknown"; a
message missing its ts aborts the handler instead (see the counterexample). -/
theorem optional_fields_graceful :
    (∀ (c : SlackClient) (uid : String) (user : JVal),
      c.users_info uid = .ok (jobj [("user", user)]) →
      (get_user_info_text c uid).isOk = true)
    ∧ (get_user_info_text noEmailClient "U9").map (occurrences "**Email:** N/A") = .ok 1
    ∧ (∀ (env : Env) (cid : String) (tsv : String) (q : PyNum),
      pyFloat (jstr tsv) = .ok q →
      (renderHistoryMessage env cid (jobj [("ts", jstr tsv)])).isOk = true)
    ∧ (renderHistoryMessage fixEnv "C1" (jobj [("ts", jstr "0")])).map
        (occurrences "**User:** <@unknown>") = .ok 1 := by
  refine ⟨?_, rfl, ?_, rfl⟩
  · intro c uid user h
    unfold get_user_info_text
    rw [h]
    rfl
  · intro env cid tsv q h
    unfold renderHistoryMessage
    rw [show (jobj [("ts", jstr tsv)]).getD "ts" (jstr "") = jstr tsv from rfl]
    dsimp only
    rw [h]
    rfl

/-- Witness for C6 amended: the graceful paths at the concrete fixtures. -/
theorem optional_fields_graceful_witness :
    (noEmailClient.users_info "U9" = .ok (jobj [("user", noEmailUser)]) ∧
      (get_user_info_text noEmailClient "U9").isOk = true) ∧
    (pyFloat (jstr "0") = .ok 0 ∧
      (renderHistoryMessage fixEnv "C1" (jobj [("ts", jstr "0")])).isOk = true) :=
  ⟨⟨rfl, optional_fields_graceful.1 noEmailClient "U9" noEmailUser rfl⟩,
   ⟨rfl, optional_fields_graceful.2.2.1 fixEnv "C1" "0" 0 rfl⟩⟩

/-- Reduction of a successful Except bind (rewriting helper). -/
theorem exceptBind_ok_red {α β : Type} (a : α) (f : α → Except PyError β) :
    (Except.ok a >>= f) = f a := rfl

/-- Python str() is the identity on strings (rewriting helper). -/
theorem pyStr_jstr (s : String) : pyStr (jstr s) = s := rfl

/-- C8: search_my_conversations is determined by one auth-check call and one
search call whose query is the supplied query with the caller mention
appended and whose count is capped at 100; the header reports the remote
total alongside the number of rendered matches. -/
theorem search_resolves_identity_and_caps (env : Env) (c : SlackClient)
    (query : String) (count : PyNum) (uid : String) (ms : List JVal) (t : JVal)
    (rs : List String)
    (hauth : c.auth_test = .ok (jobj [("user_id", jstr uid)]))
    (hsearch : c.search_messages (query ++ " <@" ++ uid ++ ">") (min count 100) =
      .ok (jobj [("messages", jobj [("matches", jarr ms), ("total", t)])]))
    (hrender : renderSearchMatches env ms = .ok rs) :
    search_my_conversations_text env c query count =
      .ok ("# Search Results\n" ++
        ("Query: '" ++ query ++ "' (including mentions of you)\n") ++
        ("Found " ++ pyStr t ++ " total matches, showing " ++
          toString rs.length ++ " results:\n\n") ++
        String.join rs) := by
  have h1 : subscr (jobj [("user_id", jstr uid)]) "user_id" = Except.ok (jstr uid) := rfl
  have h2 : subscr (jobj [("messages", jobj [("matches", jarr ms), ("total", t)])])
      "messages" = Except.ok (jobj [("matches", jarr ms), ("total", t)]) := rfl
  have h3 : subscr (jobj [("matches", jarr ms), ("total", t)]) "matches" =
      Except.ok (jarr ms) := rfl
  have h4 : subscr (jobj [("matches", jarr ms), ("total", t)]) "total" =
      Except.ok t := rfl
  have h5 : expectArr (jarr ms) = Except.ok ms := rfl
  unfold search_my_conversations_text
  simp only [hauth, exceptBind_ok_red, h1, pyStr_jstr, hsearch, h2, h3, h5, hrender, h4]
  rfl

/-- Witness for C8 on the concrete search fixture. -/
theorem search_resolves_identity_and_caps_witness :
    ∃ rs, renderSearchMatches fixEnv [ordMsg1] = .ok rs ∧
      search_my_conversations_text fixEnv searchClient "deploy" 20 =
        .ok ("# Search Results\n" ++
          ("Query: '" ++ "deploy" ++ "' (including mentions of you)\n") ++
          ("Found " ++ pyStr (jnum 42) ++ " total matches, showing " ++
            toString rs.length ++ " results:\n\n") ++
          String.join rs) := by
  have hr : renderSearchMatches fixEnv [ordMsg1] =
      .ok ((renderSearchMatches fixEnv [ordMsg1]).toOption.getD []) := rfl
  exact ⟨_, hr,
    search_resolves_identity_and_caps fixEnv searchClient "deploy" 20 "U9" [ordMsg1]
      (jnum 42) _ rfl rfl hr⟩

/-- C9 (code bug): on a UTC host the lower time bound is exactly
now − lookback_hours, but datetime.utcnow().timestamp() reinterprets the
naive UTC datetime as host-local time, so on a host at offset +3600 s the
bound computed for lookback_hours = 0 is one hour before now: against a
client honoring the Slack oldest contract, lookback_hours = 0 then renders
one recent message and the header reads "Found 1 messages", not
"Found 0 messages". On the UTC host the same call renders zero messages with
the well-formed "Found 0 messages..." header. -/
theorem lookback_lower_bound_and_zero :
    (∀ (now lookback : PyNum) (ws : Option String),
      historyOldestTs { tz := 0, now := now, workspace_url := ws } lookback =
        now - lookback * 3600)
    ∧ historyOldestTs cetEnv 0 ≠ cetEnv.now - 0 * 3600
    ∧ (∃ s, read_channel_messages_text cetEnv honoringClient "C1" 0 100 = .ok s ∧
        occurrences "Found 1 messages from the last 0 hours" s = 1 ∧
        occurrences "Found 0 messages" s = 0)
    ∧ (∃ s, read_channel_messages_text
        { tz := 0, now := 1700000000, workspace_url := none }
        honoringClient "C1" 0 100 = .ok s ∧
        occurrences "Found 0 messages from the last 0 hours" s = 1) := by
  refine ⟨?_, by decide, ?_, ?_⟩
  · intro now lookback ws
    show (now - lookback * 3600) - PyNum.ofSeconds 0 = now - lookback * 3600
    show PyNum.sub _ _ = _
    unfold PyNum.sub PyNum.ofSeconds
    cases hsub : now - lookback * 3600
    simp
  · exact ⟨(read_channel_messages_text cetEnv honoringClient "C1" 0 100).toOption.getD "",
      rfl, by decide, by decide⟩
  · exact ⟨(read_channel_messages_text
        { tz := 0, now := 1700000000, workspace_url := none }
        honoringClient "C1" 0 100).toOption.getD "", rfl, by decide⟩

end SlackMCP
